import Mathlib

/-!
Shallow embedding of the `TextAnomalyDetectionForApiGateway` OCI function
(`func.py` together with `oci_utils/url_utils.py`): the anomaly evaluator,
the document-generation payload builder, the content-type gate, and the
pipeline orchestrator (`handler`), with the external collaborators
(object storage, AI detection, function invocation, PAR creation)
modelled as an oracle environment.  Python machine floats are modelled as
exact rationals; Python `round(x, n)` is modelled as round-half-to-even
onto the decimal grid.  Fallible Python code (exceptions) is modelled
with `Except`.
-/

namespace TextAnomaly

/-- A Python exception value (only its message is observable here). -/
structure PyExn where
  msg : String
deriving DecidableEq

instance instDecidableEqExcept {ε α : Type} [DecidableEq ε] [DecidableEq α] :
    DecidableEq (Except ε α) := fun a b =>
  match a, b with
  | .ok x, .ok y =>
      if h : x = y then .isTrue (by rw [h])
      else .isFalse (by intro hc; cases hc; exact h rfl)
  | .error x, .error y =>
      if h : x = y then .isTrue (by rw [h])
      else .isFalse (by intro hc; cases hc; exact h rfl)
  | .ok _, .error _ => .isFalse (by intro hc; cases hc)
  | .error _, .ok _ => .isFalse (by intro hc; cases hc)

/-- Round `q · s` to the nearest integer, ties to even (the behaviour
of Python's builtin `round`), computed on the canonical fraction
`q.num / q.den` so that the kernel can evaluate it: `f` is the floor of
`q · s` (Euclidean division by the positive denominator), and
`2 · (q.num · s - f · q.den)` compares the fractional part against
`1/2`.  `pyRoundHalfEvenScaled_eq_floor_fract` below proves this equal
to the textbook floor/fract formulation. -/
def pyRoundHalfEvenScaled (q : ℚ) (s : ℤ) : ℤ :=
  let n : ℤ := q.num * s
  let d : ℤ := (q.den : ℤ)
  let f : ℤ := n / d
  let rem2 : ℤ := 2 * (n - f * d)
  if rem2 < d then f
  else if d < rem2 then f + 1
  else if f % 2 = 0 then f else f + 1

/-- Python `round(q, 1)`: round to one decimal place, ties to even. -/
def pyRound1 (q : ℚ) : ℚ := mkRat (pyRoundHalfEvenScaled q 10) 10

/-- Python `round(q, 2)`: round to two decimal places, ties to even. -/
def pyRound2 (q : ℚ) : ℚ := mkRat (pyRoundHalfEvenScaled q 100) 100

/-- Python `round(q * 100, 1)` (the per-word percentage of the report
payload), in one kernel-computable step; `pyRoundPercent_eq` below
proves it equal to `pyRound1 (q * 100)`. -/
def pyRoundPercent (q : ℚ) : ℚ := mkRat (pyRoundHalfEvenScaled q 1000) 10

lemma pyRoundHalfEvenScaled_eq_floor_fract (q : ℚ) (s : ℤ) :
    pyRoundHalfEvenScaled q s =
      if Int.fract (q * (s : ℚ)) < 1/2 then ⌊q * (s : ℚ)⌋
      else if (1/2 : ℚ) < Int.fract (q * (s : ℚ)) then ⌊q * (s : ℚ)⌋ + 1
      else if ⌊q * (s : ℚ)⌋ % 2 = 0 then ⌊q * (s : ℚ)⌋
      else ⌊q * (s : ℚ)⌋ + 1 := by
  have hdpos : (0 : ℚ) < ((q.den : ℕ) : ℚ) := by
    exact_mod_cast q.den_pos
  have hx : q * (s : ℚ) = ((q.num * s : ℤ) : ℚ) / ((q.den : ℕ) : ℚ) := by
    conv_lhs => rw [← Rat.num_div_den q]
    push_cast
    ring
  have hfloor : ⌊q * (s : ℚ)⌋ = q.num * s / (q.den : ℤ) := by
    rw [hx]
    exact Rat.floor_intCast_div_natCast _ _
  have hfr : Int.fract (q * (s : ℚ))
      = ((q.num * s - q.num * s / (q.den : ℤ) * (q.den : ℤ) : ℤ) : ℚ)
          / ((q.den : ℕ) : ℚ) := by
    rw [Int.fract, hfloor, hx]
    push_cast
    field_simp
    ring
  have h1 : (2 * (q.num * s - q.num * s / (q.den : ℤ) * (q.den : ℤ)) < (q.den : ℤ))
      ↔ Int.fract (q * (s : ℚ)) < 1/2 := by
    rw [hfr, div_lt_div_iff₀ hdpos (by norm_num : (0:ℚ) < 2), one_mul,
      show ((q.num * s - q.num * s / (q.den : ℤ) * (q.den : ℤ) : ℤ) : ℚ) * 2
          = ((2 * (q.num * s - q.num * s / (q.den : ℤ) * (q.den : ℤ)) : ℤ) : ℚ) by
        push_cast; ring]
    exact_mod_cast Iff.rfl
  have h2 : ((q.den : ℤ) < 2 * (q.num * s - q.num * s / (q.den : ℤ) * (q.den : ℤ)))
      ↔ (1/2 : ℚ) < Int.fract (q * (s : ℚ)) := by
    rw [hfr, div_lt_div_iff₀ (by norm_num : (0:ℚ) < 2) hdpos, one_mul,
      show ((q.num * s - q.num * s / (q.den : ℤ) * (q.den : ℤ) : ℤ) : ℚ) * 2
          = ((2 * (q.num * s - q.num * s / (q.den : ℤ) * (q.den : ℤ)) : ℤ) : ℚ) by
        push_cast; ring]
    exact_mod_cast Iff.rfl
  rw [← hfloor] at h1 h2
  unfold pyRoundHalfEvenScaled
  simp only [← hfloor, h1, h2]

lemma pyRound1_mkRat_tenth (m : ℤ) : pyRound1 (mkRat m 10) = mkRat m 10 := by
  unfold pyRound1
  congr 1
  rw [pyRoundHalfEvenScaled_eq_floor_fract,
    show (mkRat m 10 : ℚ) * ((10 : ℤ) : ℚ) = (m : ℚ) by
      rw [Rat.mkRat_eq_div]; push_cast; field_simp]
  simp [Int.fract_intCast, Int.floor_intCast]

/-- Python's `round(·, 1)` is idempotent. -/
lemma pyRound1_idempotent (q : ℚ) : pyRound1 (pyRound1 q) = pyRound1 q := by
  show pyRound1 (mkRat (pyRoundHalfEvenScaled q 10) 10)
      = mkRat (pyRoundHalfEvenScaled q 10) 10
  exact pyRound1_mkRat_tenth _

/-- The one-step percentage rounding is exactly `round(q * 100, 1)`. -/
lemma pyRoundPercent_eq (q : ℚ) : pyRoundPercent q = pyRound1 (q * 100) := by
  unfold pyRoundPercent pyRound1
  congr 1
  rw [pyRoundHalfEvenScaled_eq_floor_fract, pyRoundHalfEvenScaled_eq_floor_fract,
    show q * 100 * ((10 : ℤ) : ℚ) = q * ((1000 : ℤ) : ℚ) by push_cast; ring]

/-- One normalized polygon vertex of the AI response
(`{"x": ..., "y": ...}`; either key may be absent, Python reads it with
`.get("x", 0)`). -/
structure NormalizedVertex where
  x : Option ℚ
  y : Option ℚ
deriving DecidableEq

/-- The `bounding_polygon` sub-dictionary of a detected word. -/
structure BoundingPolygon where
  normalized_vertices : Option (List NormalizedVertex)
deriving DecidableEq

/-- One word of the AI text-detection response.  Every field may be
absent, matching the dictionary `.get` accesses in `func.py`. -/
structure DetectWord where
  text : Option String
  confidence : Option ℚ
  bounding_polygon : Option BoundingPolygon
deriving DecidableEq

/-- The `image_text` sub-dictionary of the AI text-detection response. -/
structure ImageText where
  words : Option (List DetectWord)
deriving DecidableEq

/-- The AI text-detection response dictionary. -/
structure DetectResponse where
  image_text : Option ImageText
deriving DecidableEq

/-- `detect_text_response.get("image_text", {}).get("words", [])`
(the word-list access shared by `all_texts_are_clear_in_the_image` and
`generate_doc_gen_data_content_from_ai_response`). -/
def wordsOf (r : DetectResponse) : List DetectWord :=
  match r.image_text with
  | none => []
  | some it => it.words.getD []

/-- `word.get("bounding_polygon", {}).get("normalized_vertices", [])`. -/
def verticesOf (w : DetectWord) : List NormalizedVertex :=
  match w.bounding_polygon with
  | none => []
  | some bp => bp.normalized_vertices.getD []

/-- `func.py` `all_texts_are_clear_in_the_image`: `True` iff every
detected word's confidence (defaulting to 0 when absent) is at least the
confidence level.  The Python default argument is `0.90`. -/
def all_texts_are_clear_in_the_image (detect_text_response : DetectResponse)
    (confidence_level : ℚ) : Bool :=
  (wordsOf detect_text_response).all
    (fun word => decide (confidence_level ≤ word.confidence.getD 0))

/-- A rounded corner of a word's bounding box in the report payload. -/
structure Corner where
  x : ℚ
  y : ℚ
deriving DecidableEq

/-- One per-word entry of the report payload. -/
structure WordEntry where
  word : Option String
  confidence : ℚ
  corner1 : Corner
  corner3 : Corner
deriving DecidableEq

/-- The `image_with_anomalies` part of the report payload. -/
structure ImageWithAnomalies where
  source : String
  objectName : String
  namespaceName : String
  bucketName : String
  mediaType : String
  height : String
deriving DecidableEq

/-- The document-generator data content (`data_content` in `func.py`). -/
structure DataContent where
  image_with_anomalies : ImageWithAnomalies
  words : List WordEntry
deriving DecidableEq

/-- The `IndexError` raised by Python when `normalized_vertices[0]` or
`normalized_vertices[2]` is out of range. -/
def indexError : PyExn := ⟨"list index out of range"⟩

/-- The per-word dictionary built inside the list comprehension of
`generate_doc_gen_data_content_from_ai_response`; raises `IndexError`
when the word has fewer than 3 normalized vertices. -/
def wordEntryOf (word : DetectWord) : Except PyExn WordEntry :=
  match (verticesOf word).get? 0 with
  | none => .error indexError
  | some v0 =>
    match (verticesOf word).get? 2 with
    | none => .error indexError
    | some v2 =>
      .ok { word := word.text
          , confidence := pyRoundPercent (word.confidence.getD 0)
          , corner1 := ⟨pyRound2 (v0.x.getD 0), pyRound2 (v0.y.getD 0)⟩
          , corner3 := ⟨pyRound2 (v2.x.getD 0), pyRound2 (v2.y.getD 0)⟩ }

/-- `func.py` `generate_doc_gen_data_content_from_ai_response`. -/
def generate_doc_gen_data_content_from_ai_response
    (detect_text_response : DetectResponse)
    (bucket_name : String) (ns : String) (object_name : String) :
    Except PyExn DataContent :=
  match (wordsOf detect_text_response).mapM wordEntryOf with
  | .error e => .error e
  | .ok entries =>
      .ok { image_with_anomalies :=
              { source := "OBJECT_STORAGE"
              , objectName := object_name
              , namespaceName := ns
              , bucketName := bucket_name
              , mediaType := "image/png"
              , height := "450px" }
          , words := entries }

/-- Python `str.rfind`: index of the last occurrence of `c` in `cs`,
`-1` when absent. -/
def rfindChar (cs : List Char) (c : Char) : Int :=
  (List.range cs.length).foldl
    (fun acc i => if cs.get? i = some c then (i : Int) else acc) (-1)

/-- `posixpath.splitext`'s extension (the part from the last dot on,
dot included): the last dot only counts when some character strictly
between the last path separator and that dot is not itself a dot. -/
def splitextExt (p : String) : String :=
  let cs := p.toList
  let sepIndex := rfindChar cs '/'
  let dotIndex := rfindChar cs '.'
  if sepIndex < dotIndex ∧
      (List.range cs.length).any
        (fun k => decide (sepIndex < (k : Int)) && decide ((k : Int) < dotIndex)
          && decide (cs.get? k ≠ some '.')) then
    String.mk (cs.drop dotIndex.toNat)
  else ""

/-- Modelled from the Python standard library: the image-type rows of
`mimetypes.types_map`, which `mimetypes.guess_type` consults by
lower-cased extension.  Non-image rows are irrelevant here because
`get_image_content_type` only compares the result against
`image/jpeg` and `image/png`. -/
def typesMapImage : List (String × String) :=
  [(".jpg", "image/jpeg"), (".jpeg", "image/jpeg"), (".jpe", "image/jpeg"),
   (".jfif", "image/jpeg"),
   (".png", "image/png"), (".gif", "image/gif"), (".bmp", "image/bmp"),
   (".tif", "image/tiff"), (".tiff", "image/tiff"), (".webp", "image/webp"),
   (".svg", "image/svg+xml"), (".ico", "image/vnd.microsoft.icon"),
   (".heic", "image/heic"), (".heif", "image/heif"), (".avif", "image/avif"),
   (".pnm", "image/x-portable-anymap"), (".pbm", "image/x-portable-bitmap"),
   (".pgm", "image/x-portable-graymap"), (".ppm", "image/x-portable-pixmap"),
   (".ras", "image/x-cmu-raster"), (".rgb", "image/x-rgb"),
   (".xbm", "image/x-xbitmap"), (".xpm", "image/x-xpixmap"),
   (".xwd", "image/x-xwindowdump"), (".ief", "image/ief")]

/-- Python `str.lower` restricted to ASCII (all the extension table's
keys are ASCII). -/
def lowerString (s : String) : String :=
  String.mk (s.toList.map Char.toLower)

/-- Modelled from the Python standard library: `mimetypes.guess_type`
on a plain file name — extension lookup, case-insensitive. -/
def guess_type_mime (filename : String) : Option String :=
  typesMapImage.lookup (lowerString (splitextExt filename))

/-- `url_utils.py` `get_image_content_type`: the MIME type guessed from
the file name's extension, narrowed to `image/jpeg` / `image/png`,
`None` otherwise. -/
def get_image_content_type (filename : String) : Option String :=
  let mime_type := guess_type_mime filename
  if mime_type = some "image/jpeg" then some "image/jpeg"
  else if mime_type = some "image/png" then some "image/png"
  else none

/-- Python `str.split(sep)` for a one-character separator, on character
lists: splits at every occurrence, keeping empty segments. -/
def charSplit (sep : Char) : List Char → List (List Char)
  | [] => [[]]
  | c :: cs =>
      match charSplit sep cs with
      | [] => [[]]
      | seg :: segs => if c = sep then [] :: seg :: segs else (c :: seg) :: segs

/-- `url.split('/')[-1]` in `url_utils.py` `get_data_from_url`:
the file name is the last `/`-separated segment of the URL. -/
def lastUrlSegment (url : String) : String :=
  String.mk ((charSplit '/' url.toList).getLastD [])

/-- The Python default argument `confidence_level=0.90` of
`all_texts_are_clear_in_the_image`, used by `handler`
(`mkRat 9 10 = 0.90`; see `confidenceLevelDefault_eq`). -/
def confidenceLevelDefault : ℚ := mkRat 9 10

/-- `bucket_name` local constant of `handler`. -/
def bucket_name : String := "fun_oci_functions_bucket"

/-- `namespace` local constant of `handler` (renamed: `namespace` is a
Lean keyword). -/
def namespace_name : String := "idsvv7k2bdum"

/-- Python `f"{x}"` for the value of `dict.get("code")`: `None` prints
as `None`, an integer as its decimal form. -/
def pyShowOptInt : Option Int → String
  | none => "None"
  | some n => toString n

/-- The JSON response bodies the handler can emit:
`json.dumps` of a bare string, of a `{"message": ...}` dictionary, or of
the final `{"inputUrl": ..., "reportWithAnomalies": ...}` dictionary. -/
inductive RespBody
  | jsonStr (s : String)
  | jsonMessage (message : String)
  | jsonReport (inputUrl : String) (reportWithAnomalies : Option String)
deriving DecidableEq

/-- What one invocation of `handler` does: either return an HTTP-style
response, or let an exception propagate (the bare `raise` in its
`except` clause). -/
inductive Outcome
  | resp (status_code : Nat) (body : RespBody)
  | raises (e : PyExn)
deriving DecidableEq

/-- Which external collaborators were actually called during the run,
in pipeline order: URL fetch, object-storage put, AI text detection,
payload building, document-generator invocation, PAR creation. -/
structure Trace where
  fetchCalled : Bool
  putCalled : Bool
  detectCalled : Bool
  docGenBuilderCalled : Bool
  invokeCalled : Bool
  parCalled : Bool
deriving DecidableEq

/-- Oracle for the external collaborators of one run: what each remote
call would return (or raise) if made. -/
structure Env where
  /-- `get_url_response.status_code` of the image fetch. -/
  fetchStatus : Nat
  /-- the fetched bytes (opaque). -/
  fetchContent : String
  /-- status of `put_object` for the image upload. -/
  putStatus : Nat
  /-- result of `detect_text_from_oject_storage_image` (may raise). -/
  detectResult : Except PyExn DetectResponse
  /-- transport `status_code` of the document-generator invocation. -/
  invokeStatus : Nat
  /-- `json.loads(response_body).get("code")` of the document-generator
  response (decoding may raise). -/
  invokeDecodedCode : Except PyExn (Option Int)
  /-- status of `create_preauthenticated_request`. -/
  parStatus : Nat
  /-- the PAR `full_path` (already null-checked), `none` when absent. -/
  parFullPath : Option String
  /-- the `uuid.uuid4()` string of this run. -/
  uuidStr : String

/-- Steps 7–8 of `handler`: create the PAR and assemble the final
response. -/
def parStage (url : String) (env : Env) : Outcome × Trace :=
  if env.parStatus ≠ 200 then
    (.resp 400 (.jsonMessage
        ("PAR generation error. Status code: " ++ toString env.parStatus)),
     ⟨true, true, true, true, true, true⟩)
  else
    (.resp 200 (.jsonReport url env.parFullPath),
     ⟨true, true, true, true, true, true⟩)

/-- `func.py` `handler`.  The input is `None`, a failed parse of the
body (`json.loads` / `payload["url"]` raising), or the extracted URL;
`env` supplies the collaborators' answers.  Returns the outcome and the
trace of collaborator calls made. -/
def handler (dat : Option (Except PyExn String)) (env : Env) :
    Outcome × Trace :=
  match dat with
  | none =>
      (.resp 200 (.jsonStr "No data provided"),
       ⟨false, false, false, false, false, false⟩)
  | some (.error e) =>
      (.raises e, ⟨false, false, false, false, false, false⟩)
  | some (.ok url) =>
      let file_name := lastUrlSegment url
      let content_type := get_image_content_type file_name
      if env.fetchStatus ≠ 200 then
        (.resp 400 (.jsonMessage
            ("Failed to retrieve the file from '" ++ url
              ++ "'. Status code: " ++ toString env.fetchStatus)),
         ⟨true, false, false, false, false, false⟩)
      else if content_type ≠ some "image/jpeg" ∧ content_type ≠ some "image/png" then
        (.resp 400 (.jsonMessage
            ("Failed to retrieve a jpeg or png image from '" ++ url ++ "'.")),
         ⟨true, false, false, false, false, false⟩)
      else
        let image_name := "part3/" ++ env.uuidStr ++ "-" ++ file_name
        if env.putStatus ≠ 200 then
          (.resp 400 (.jsonMessage
              ("Image " ++ image_name ++ " storing in Bucket " ++ bucket_name
                ++ " failed with status code " ++ toString env.putStatus ++ ".")),
           ⟨true, true, false, false, false, false⟩)
        else
          match env.detectResult with
          | .error e => (.raises e, ⟨true, true, true, false, false, false⟩)
          | .ok detect_text_response =>
            if all_texts_are_clear_in_the_image detect_text_response confidenceLevelDefault then
              (.resp 204 (.jsonMessage
                  ("All Words are clear in Image: \"" ++ image_name
                    ++ "\" from Bucket: \"" ++ bucket_name
                    ++ "\" in Namespace: \"" ++ namespace_name ++ "\"")),
               ⟨true, true, true, false, false, false⟩)
            else
              match generate_doc_gen_data_content_from_ai_response
                  detect_text_response bucket_name namespace_name image_name with
              | .error e =>
                  (.raises e, ⟨true, true, true, true, false, false⟩)
              | .ok _data_content =>
                  if env.invokeStatus = 200 then
                    match env.invokeDecodedCode with
                    | .error e =>
                        (.raises e, ⟨true, true, true, true, true, false⟩)
                    | .ok app_response_code =>
                        if app_response_code = some 200 then
                          parStage url env
                        else
                          (.resp 400 (.jsonMessage
                              ("Document generation failure: '"
                                ++ pyShowOptInt app_response_code
                                ++ "'. See Application Log")),
                           ⟨true, true, true, true, true, false⟩)
                  else
                    parStage url env

/-- `mkRat 9 10` is the Python literal `0.90`. -/
lemma confidenceLevelDefault_eq : confidenceLevelDefault = 9/10 := by
  unfold confidenceLevelDefault
  rw [Rat.mkRat_eq_div]
  norm_num

/-- Both branches of the PAR stage mark the PAR call as made. -/
lemma parStage_parCalled (url : String) (env : Env) :
    (parStage url env).2.parCalled = true := by
  unfold parStage
  split <;> rfl

/-- `Except.ok`-ness as a boolean, for stating that a computation did
not raise. -/
def exceptIsOk {ε α : Type} : Except ε α → Bool
  | .ok _ => true
  | .error _ => false

/-- C1.  The claim says: a `handler` invocation with no request body
(`data is None`) returns an HTTP 400 response whose JSON body is the
object `{"message": "No data provided"}`.  The code instead calls
`prepare_response(ctx, message)` — the bare string, with the default
`status_code=200` — so every such invocation returns status 200 with
the JSON string `"No data provided"` as its whole body. -/
theorem c1_missing_data_returns_200_bare_string (env : Env) :
    handler none env
      = (Outcome.resp 200 (RespBody.jsonStr "No data provided"),
         ⟨false, false, false, false, false, false⟩) := rfl

/-- C2 (amended).  At the report-generation stage: when the document
generator invocation's transport status is 200 and the decoded
application-level code is not 200, the pipeline terminates with a 400
failure whose message includes the application code, and the PAR stage
is never invoked; but when the transport status is not 200 the pipeline
does NOT fail — it proceeds to the PAR stage. -/
theorem c2_report_generation_status_handling
    (url : String) (env : Env) (r : DetectResponse) (c : Option Int)
    (hfetch : env.fetchStatus = 200)
    (hct : get_image_content_type (lastUrlSegment url) = some "image/jpeg"
        ∨ get_image_content_type (lastUrlSegment url) = some "image/png")
    (hput : env.putStatus = 200)
    (hdet : env.detectResult = .ok r)
    (hclear : all_texts_are_clear_in_the_image r confidenceLevelDefault = false)
    (hbuild : exceptIsOk (generate_doc_gen_data_content_from_ai_response r
        bucket_name namespace_name
        ("part3/" ++ env.uuidStr ++ "-" ++ lastUrlSegment url)) = true) :
    (env.invokeStatus = 200 → env.invokeDecodedCode = .ok c → c ≠ some 200 →
      handler (some (.ok url)) env
        = (.resp 400 (.jsonMessage ("Document generation failure: '"
            ++ pyShowOptInt c ++ "'. See Application Log")),
           ⟨true, true, true, true, true, false⟩))
    ∧ (env.invokeStatus ≠ 200 →
        (handler (some (.ok url)) env).2.parCalled = true) := by
  obtain ⟨d, hd⟩ : ∃ d, generate_doc_gen_data_content_from_ai_response r
      bucket_name namespace_name
      ("part3/" ++ env.uuidStr ++ "-" ++ lastUrlSegment url) = .ok d := by
    cases hgen : generate_doc_gen_data_content_from_ai_response r
        bucket_name namespace_name
        ("part3/" ++ env.uuidStr ++ "-" ++ lastUrlSegment url) with
    | ok d => exact ⟨d, rfl⟩
    | error e => rw [hgen] at hbuild; simp [exceptIsOk] at hbuild
  constructor
  · intro h200 hdec hne
    rcases hct with h | h <;>
      simp [handler, hfetch, hput, hdet, hclear, hd, h200, hdec, hne, h]
  · intro hneq
    rcases hct with h | h <;>
      simp [handler, hfetch, hput, hdet, hclear, hd, hneq, h,
        parStage_parCalled]

/-- C2 witness: a concrete anomalous run whose document-generator
invocation returns transport 200 with application code 500 ends in the
400 failure naming code 500, with the PAR stage never invoked. -/
theorem c2_report_generation_status_handling_witness :
    handler (some (.ok "https://host/images/logo.png"))
        ⟨200, "png-bytes", 200,
         .ok ⟨some ⟨some [⟨some "ACME", some (mkRat 1 2),
           some ⟨some [⟨some (mkRat 1 10), some (mkRat 1 10)⟩,
                       ⟨some (mkRat 2 10), some (mkRat 1 10)⟩,
                       ⟨some (mkRat 2 10), some (mkRat 2 10)⟩,
                       ⟨some (mkRat 1 10), some (mkRat 2 10)⟩]⟩⟩]⟩⟩,
         200, .ok (some 500), 200, some "https://os.example/p/r.pdf", "0000"⟩
      = (.resp 400 (.jsonMessage
          "Document generation failure: '500'. See Application Log"),
         ⟨true, true, true, true, true, false⟩) := by
  have h := c2_report_generation_status_handling
    "https://host/images/logo.png"
    ⟨200, "png-bytes", 200,
     .ok ⟨some ⟨some [⟨some "ACME", some (mkRat 1 2),
       some ⟨some [⟨some (mkRat 1 10), some (mkRat 1 10)⟩,
                   ⟨some (mkRat 2 10), some (mkRat 1 10)⟩,
                   ⟨some (mkRat 2 10), some (mkRat 2 10)⟩,
                   ⟨some (mkRat 1 10), some (mkRat 2 10)⟩]⟩⟩]⟩⟩,
     200, .ok (some 500), 200, some "https://os.example/p/r.pdf", "0000"⟩
    ⟨some ⟨some [⟨some "ACME", some (mkRat 1 2),
       some ⟨some [⟨some (mkRat 1 10), some (mkRat 1 10)⟩,
                   ⟨some (mkRat 2 10), some (mkRat 1 10)⟩,
                   ⟨some (mkRat 2 10), some (mkRat 2 10)⟩,
                   ⟨some (mkRat 1 10), some (mkRat 2 10)⟩]⟩⟩]⟩⟩
    (some 500) rfl (Or.inr (by decide)) rfl rfl (by decide) (by decide)
  exact h.1 rfl rfl (by decide)

/-- C2 counterexample to the claim as stated: a concrete run reaching
the report-generation stage whose invocation transport status is 500
does not terminate with a 400 failure — it invokes the PAR stage and
returns 200. -/
theorem c2_transport_failure_not_terminal_counterexample :
    (⟨200, "png-bytes", 200,
       .ok ⟨some ⟨some [⟨some "ACME", some (mkRat 1 2),
         some ⟨some [⟨some (mkRat 1 10), some (mkRat 1 10)⟩,
                     ⟨some (mkRat 2 10), some (mkRat 1 10)⟩,
                     ⟨some (mkRat 2 10), some (mkRat 2 10)⟩,
                     ⟨some (mkRat 1 10), some (mkRat 2 10)⟩]⟩⟩]⟩⟩,
       500, .ok none, 200, some "https://os.example/p/r.pdf", "0000"⟩ : Env).invokeStatus
        = 500
    ∧ handler (some (.ok "https://host/images/logo.png"))
        ⟨200, "png-bytes", 200,
         .ok ⟨some ⟨some [⟨some "ACME", some (mkRat 1 2),
           some ⟨some [⟨some (mkRat 1 10), some (mkRat 1 10)⟩,
                       ⟨some (mkRat 2 10), some (mkRat 1 10)⟩,
                       ⟨some (mkRat 2 10), some (mkRat 2 10)⟩,
                       ⟨some (mkRat 1 10), some (mkRat 2 10)⟩]⟩⟩]⟩⟩,
         500, .ok none, 200, some "https://os.example/p/r.pdf", "0000"⟩
      = (.resp 200 (.jsonReport "https://host/images/logo.png"
            (some "https://os.example/p/r.pdf")),
         ⟨true, true, true, true, true, true⟩) := by
  exact ⟨rfl, by decide⟩

/-- C3.  The anomaly evaluator returns `true` ("clear") iff every
word's confidence (0 when absent) is at least the threshold; a result
with zero words is clear; it returns `false` ("anomalous") whenever
some word's confidence is strictly below the threshold; and threshold
0.90 with confidences [0.95, 0.91, 0.89] yields anomalous. -/
theorem c3_evaluate_clear_iff :
    (∀ (r : DetectResponse) (θ : ℚ),
        all_texts_are_clear_in_the_image r θ = true
          ↔ ∀ w ∈ wordsOf r, θ ≤ w.confidence.getD 0)
    ∧ (∀ (θ : ℚ) (r : DetectResponse), wordsOf r = [] →
        all_texts_are_clear_in_the_image r θ = true)
    ∧ (∀ (r : DetectResponse) (θ : ℚ) (w : DetectWord), w ∈ wordsOf r →
        w.confidence.getD 0 < θ →
        all_texts_are_clear_in_the_image r θ = false)
    ∧ all_texts_are_clear_in_the_image
        ⟨some ⟨some [⟨some "w1", some (mkRat 95 100), none⟩,
                     ⟨some "w2", some (mkRat 91 100), none⟩,
                     ⟨some "w3", some (mkRat 89 100), none⟩]⟩⟩
        (mkRat 90 100) = false := by
  have hiff : ∀ (r : DetectResponse) (θ : ℚ),
      all_texts_are_clear_in_the_image r θ = true
        ↔ ∀ w ∈ wordsOf r, θ ≤ w.confidence.getD 0 := by
    intro r θ
    simp [all_texts_are_clear_in_the_image, List.all_eq_true]
  refine ⟨hiff, ?_, ?_, by decide⟩
  · intro θ r h
    simp [all_texts_are_clear_in_the_image, h]
  · intro r θ w hw hlt
    cases hA : all_texts_are_clear_in_the_image r θ with
    | false => rfl
    | true =>
        exact absurd ((hiff r θ).mp hA w hw) (not_le.mpr hlt)

/-- C3 witness: the evaluator at concrete inputs — an empty word list
is clear, and a word with confidence 0.5 under threshold 0.90 is
anomalous. -/
theorem c3_evaluate_clear_iff_witness :
    all_texts_are_clear_in_the_image ⟨some ⟨some []⟩⟩ (mkRat 90 100) = true
    ∧ all_texts_are_clear_in_the_image
        ⟨some ⟨some [⟨some "x", some (mkRat 1 2), none⟩]⟩⟩
        (mkRat 90 100) = false :=
  ⟨c3_evaluate_clear_iff.2.1 (mkRat 90 100) ⟨some ⟨some []⟩⟩ rfl,
   c3_evaluate_clear_iff.2.2.1
     ⟨some ⟨some [⟨some "x", some (mkRat 1 2), none⟩]⟩⟩
     (mkRat 90 100) ⟨some "x", some (mkRat 1 2), none⟩
     (by decide) (by decide)⟩

/-- C4.  In a run where fetch succeeds (status 200), the content type
is recognized, storage succeeds (status 200), detection succeeds and
the evaluator says "clear", the handler returns status 204 with the
descriptive message, and neither the payload builder, the generator
invocation, nor the PAR creation is executed. -/
theorem c4_clear_image_204_short_circuit
    (url : String) (env : Env) (r : DetectResponse)
    (hfetch : env.fetchStatus = 200)
    (hct : get_image_content_type (lastUrlSegment url) = some "image/jpeg"
        ∨ get_image_content_type (lastUrlSegment url) = some "image/png")
    (hput : env.putStatus = 200)
    (hdet : env.detectResult = .ok r)
    (hclear : all_texts_are_clear_in_the_image r confidenceLevelDefault = true) :
    handler (some (.ok url)) env
      = (.resp 204 (.jsonMessage ("All Words are clear in Image: \""
          ++ ("part3/" ++ env.uuidStr ++ "-" ++ lastUrlSegment url)
          ++ "\" from Bucket: \"" ++ bucket_name
          ++ "\" in Namespace: \"" ++ namespace_name ++ "\"")),
         ⟨true, true, true, false, false, false⟩) := by
  rcases hct with h | h <;>
    simp [handler, hfetch, hput, hdet, hclear, h]

/-- C4 witness: a concrete clear-image run (one word at confidence
0.95) ends with status 204 and no builder/generator/PAR call. -/
theorem c4_clear_image_204_short_circuit_witness :
    handler (some (.ok "https://host/images/logo.png"))
        ⟨200, "png-bytes", 200,
         .ok ⟨some ⟨some [⟨some "ACME", some (mkRat 95 100), none⟩]⟩⟩,
         200, .ok (some 200), 200, some "https://os.example/p/r.pdf", "0000"⟩
      = (.resp 204 (.jsonMessage ("All Words are clear in Image: \""
          ++ ("part3/" ++ "0000" ++ "-" ++ lastUrlSegment "https://host/images/logo.png")
          ++ "\" from Bucket: \"" ++ bucket_name
          ++ "\" in Namespace: \"" ++ namespace_name ++ "\"")),
         ⟨true, true, true, false, false, false⟩) :=
  c4_clear_image_204_short_circuit "https://host/images/logo.png"
    ⟨200, "png-bytes", 200,
     .ok ⟨some ⟨some [⟨some "ACME", some (mkRat 95 100), none⟩]⟩⟩,
     200, .ok (some 200), 200, some "https://os.example/p/r.pdf", "0000"⟩
    ⟨some ⟨some [⟨some "ACME", some (mkRat 95 100), none⟩]⟩⟩
    rfl (Or.inr (by decide)) rfl rfl (by decide)

/-- C5.  The content type is a function of the file name's lower-cased
extension only; its only possible values are `image/jpeg`, `image/png`
and `None`; `photo.png` and `photo.jpg` pass while `photo.gif` and
extensionless `photo` do not; and in a run whose file name yields an
unrecognized content type the handler stops with a 400 failure before
any storage upload or detection call. -/
theorem c5_content_type_gate :
    (∀ f g : String, lowerString (splitextExt f) = lowerString (splitextExt g) →
        get_image_content_type f = get_image_content_type g)
    ∧ (∀ f : String, get_image_content_type f = some "image/jpeg"
        ∨ get_image_content_type f = some "image/png"
        ∨ get_image_content_type f = none)
    ∧ get_image_content_type "photo.png" = some "image/png"
    ∧ get_image_content_type "photo.jpg" = some "image/jpeg"
    ∧ get_image_content_type "photo.gif" = none
    ∧ get_image_content_type "photo" = none
    ∧ (∀ (url : String) (env : Env), env.fetchStatus = 200 →
        get_image_content_type (lastUrlSegment url) = none →
        handler (some (.ok url)) env
          = (.resp 400 (.jsonMessage
              ("Failed to retrieve a jpeg or png image from '" ++ url ++ "'.")),
             ⟨true, false, false, false, false, false⟩)) := by
  refine ⟨?_, ?_, by decide, by decide, by decide, by decide, ?_⟩
  · intro f g h
    unfold get_image_content_type guess_type_mime
    rw [h]
  · intro f
    unfold get_image_content_type
    dsimp only
    split_ifs <;> simp
  · intro url env hf hnone
    simp [handler, hf, hnone]

/-- C5 witness: a run fetching `photo.gif` with fetch status 200 stops
with the 400 content-type failure, no storage or detection call made. -/
theorem c5_content_type_gate_witness :
    handler (some (.ok "https://host/files/photo.gif"))
        ⟨200, "gif-bytes", 200, .ok ⟨none⟩, 200, .ok (some 200), 200,
         some "https://os.example/p/r.pdf", "0000"⟩
      = (.resp 400 (.jsonMessage
          "Failed to retrieve a jpeg or png image from 'https://host/files/photo.gif'."),
         ⟨true, false, false, false, false, false⟩) := by
  have h := c5_content_type_gate.2.2.2.2.2.2 "https://host/files/photo.gif"
    ⟨200, "gif-bytes", 200, .ok ⟨none⟩, 200, .ok (some 200), 200,
     some "https://os.example/p/r.pdf", "0000"⟩
    rfl (by decide)
  simpa using h

/-- C6.  Whenever the image fetch returns a transport status other than
200, the handler returns a 400 failure whose message names the source
URL and the status, with no storage upload and no detection call. -/
theorem c6_fetch_failure_400
    (url : String) (env : Env) (h : env.fetchStatus ≠ 200) :
    handler (some (.ok url)) env
      = (.resp 400 (.jsonMessage ("Failed to retrieve the file from '" ++ url
          ++ "'. Status code: " ++ toString env.fetchStatus)),
         ⟨true, false, false, false, false, false⟩) := by
  simp [handler, h]

/-- C6 witness: fetch status 404 yields the concrete 400 failure naming
the URL and status 404, with no storage or detection call. -/
theorem c6_fetch_failure_400_witness :
    handler (some (.ok "https://host/images/a.png"))
        ⟨404, "", 200, .ok ⟨none⟩, 200, .ok (some 200), 200,
         some "https://os.example/p/r.pdf", "0000"⟩
      = (.resp 400 (.jsonMessage
          "Failed to retrieve the file from 'https://host/images/a.png'. Status code: 404"),
         ⟨true, false, false, false, false, false⟩) := by
  have h := c6_fetch_failure_400 "https://host/images/a.png"
    ⟨404, "", 200, .ok ⟨none⟩, 200, .ok (some 200), 200,
     some "https://os.example/p/r.pdf", "0000"⟩
    (by decide)
  simpa using h

/-- C7.  The payload builder's percentage is `round(confidence*100, 1)`
(ties to even); confidence 0.8234 maps to 82.3; the rounding is
idempotent, and re-rounding 82.3 yields 82.3. -/
theorem c7_percentage_rounding_stable_idempotent :
    (∀ (w : DetectWord) (e : WordEntry), wordEntryOf w = .ok e →
        e.confidence = pyRound1 (w.confidence.getD 0 * 100))
    ∧ pyRoundPercent (mkRat 4117 5000) = mkRat 823 10
    ∧ (∀ q : ℚ, pyRound1 (pyRound1 q) = pyRound1 q)
    ∧ pyRound1 (mkRat 823 10) = mkRat 823 10 := by
  refine ⟨?_, by decide, fun q => pyRound1_idempotent q, by decide⟩
  intro w e h
  unfold wordEntryOf at h
  rcases h0 : (verticesOf w).get? 0 with _ | v0
  · rw [h0] at h
    cases h
  · rw [h0] at h
    rcases h2 : (verticesOf w).get? 2 with _ | v2
    · rw [h2] at h
      cases h
    · rw [h2] at h
      injection h with h'
      subst h'
      simpa using pyRoundPercent_eq (w.confidence.getD 0)

/-- C7 witness: the builder maps confidence 0.8234 to the rounded
percentage `round(0.8234 * 100, 1)` (= 82.3), and re-rounding 82.34 is
stable. -/
theorem c7_percentage_rounding_stable_idempotent_witness :
    ((⟨some "W", mkRat 823 10, ⟨mkRat 1 100, mkRat 1 100⟩,
        ⟨mkRat 1 100, mkRat 1 100⟩⟩ : WordEntry).confidence
      = pyRound1 ((mkRat 4117 5000 : ℚ) * 100))
    ∧ pyRound1 (pyRound1 (mkRat 4117 50)) = pyRound1 (mkRat 4117 50) :=
  ⟨c7_percentage_rounding_stable_idempotent.1
     ⟨some "W", some (mkRat 4117 5000),
      some ⟨some [⟨some (mkRat 1 100), some (mkRat 1 100)⟩,
                  ⟨some (mkRat 1 100), some (mkRat 1 100)⟩,
                  ⟨some (mkRat 1 100), some (mkRat 1 100)⟩]⟩⟩
     ⟨some "W", mkRat 823 10, ⟨mkRat 1 100, mkRat 1 100⟩,
      ⟨mkRat 1 100, mkRat 1 100⟩⟩
     (by decide),
   c7_percentage_rounding_stable_idempotent.2.2.1 (mkRat 4117 50)⟩

/-- C8.  In a run where fetch succeeds, the content type is recognized
and storage succeeds, an exception from the text-detection call is not
converted into a structured response: the handler re-raises it as an
unhandled invocation fault. -/
theorem c8_detection_exception_propagates
    (url : String) (env : Env) (e : PyExn)
    (hfetch : env.fetchStatus = 200)
    (hct : get_image_content_type (lastUrlSegment url) = some "image/jpeg"
        ∨ get_image_content_type (lastUrlSegment url) = some "image/png")
    (hput : env.putStatus = 200)
    (hdet : env.detectResult = .error e) :
    handler (some (.ok url)) env
      = (.raises e, ⟨true, true, true, false, false, false⟩) := by
  rcases hct with h | h <;>
    simp [handler, hfetch, hput, hdet, h]

/-- C8 witness: a concrete run whose detection call raises ends with
the exception propagating, not with a 400 response. -/
theorem c8_detection_exception_propagates_witness :
    handler (some (.ok "https://host/images/logo.png"))
        ⟨200, "png-bytes", 200, .error ⟨"ServiceError: vision service unavailable"⟩,
         200, .ok (some 200), 200, some "https://os.example/p/r.pdf", "0000"⟩
      = (.raises ⟨"ServiceError: vision service unavailable"⟩,
         ⟨true, true, true, false, false, false⟩) :=
  c8_detection_exception_propagates "https://host/images/logo.png"
    ⟨200, "png-bytes", 200, .error ⟨"ServiceError: vision service unavailable"⟩,
     200, .ok (some 200), 200, some "https://os.example/p/r.pdf", "0000"⟩
    ⟨"ServiceError: vision service unavailable"⟩
    rfl (Or.inr (by decide)) rfl rfl

/-- C9.  Whenever the payload builder succeeds, the payload's stored
image is declared with media type `image/png` and display height
`450px`, whatever the detection result and the storage coordinates
(the actual uploaded content type is not even an input). -/
theorem c9_payload_media_type_fixed
    (r : DetectResponse) (b ns obj : String) (d : DataContent)
    (h : generate_doc_gen_data_content_from_ai_response r b ns obj = .ok d) :
    d.image_with_anomalies.mediaType = "image/png"
    ∧ d.image_with_anomalies.height = "450px" := by
  unfold generate_doc_gen_data_content_from_ai_response at h
  rcases hm : (wordsOf r).mapM wordEntryOf with e | entries
  · rw [hm] at h
    cases h
  · rw [hm] at h
    injection h with h'
    subst h'
    exact ⟨rfl, rfl⟩

/-- C9 witness: the payload built for an empty detection result in a
jpeg-uploaded bucket still declares `image/png` and `450px`. -/
theorem c9_payload_media_type_fixed_witness :
    (⟨⟨"OBJECT_STORAGE", "part3/u-jpegphoto.jpg", "idsvv7k2bdum",
       "fun_oci_functions_bucket", "image/png", "450px"⟩, []⟩
        : DataContent).image_with_anomalies.mediaType = "image/png"
    ∧ (⟨⟨"OBJECT_STORAGE", "part3/u-jpegphoto.jpg", "idsvv7k2bdum",
         "fun_oci_functions_bucket", "image/png", "450px"⟩, []⟩
        : DataContent).image_with_anomalies.height = "450px" :=
  c9_payload_media_type_fixed ⟨none⟩ "fun_oci_functions_bucket"
    "idsvv7k2bdum" "part3/u-jpegphoto.jpg"
    ⟨⟨"OBJECT_STORAGE", "part3/u-jpegphoto.jpg", "idsvv7k2bdum",
      "fun_oci_functions_bucket", "image/png", "450px"⟩, []⟩
    (by decide)

/-- C10.  A detected word with no confidence field counts as
confidence 0: it makes the evaluator anomalous for every positive
threshold, and its report-payload entry carries percentage 0. -/
theorem c10_missing_confidence_defaults_zero
    (θ : ℚ) (r : DetectResponse) (w : DetectWord)
    (hw : w ∈ wordsOf r) (hc : w.confidence = none) (hθ : 0 < θ) :
    all_texts_are_clear_in_the_image r θ = false
    ∧ (∀ e : WordEntry, wordEntryOf w = .ok e → e.confidence = 0) := by
  constructor
  · cases hA : all_texts_are_clear_in_the_image r θ with
    | false => rfl
    | true =>
        exfalso
        have hall : ∀ w' ∈ wordsOf r, θ ≤ w'.confidence.getD 0 := by
          simpa [all_texts_are_clear_in_the_image, List.all_eq_true] using hA
        have hle := hall w hw
        rw [hc] at hle
        simp only [Option.getD_none] at hle
        exact absurd hle (not_le.mpr hθ)
  · intro e he
    unfold wordEntryOf at he
    rcases h0 : (verticesOf w).get? 0 with _ | v0
    · rw [h0] at he
      cases he
    · rw [h0] at he
      rcases h2 : (verticesOf w).get? 2 with _ | v2
      · rw [h2] at he
        cases he
      · rw [h2] at he
        injection he with h'
        subst h'
        show pyRoundPercent (w.confidence.getD 0) = 0
        rw [hc]
        decide

/-- C10 witness: a concrete word with no confidence field makes the
evaluator anomalous at threshold 0.90, and its payload entry has
percentage 0. -/
theorem c10_missing_confidence_defaults_zero_witness :
    all_texts_are_clear_in_the_image
        ⟨some ⟨some [⟨some "y", none,
          some ⟨some [⟨some 0, some 0⟩, ⟨some 0, some 0⟩,
                      ⟨some 0, some 0⟩]⟩⟩]⟩⟩ (mkRat 9 10) = false
    ∧ (⟨some "y", 0, ⟨0, 0⟩, ⟨0, 0⟩⟩ : WordEntry).confidence = 0 := by
  have h := c10_missing_confidence_defaults_zero (mkRat 9 10)
    ⟨some ⟨some [⟨some "y", none,
      some ⟨some [⟨some 0, some 0⟩, ⟨some 0, some 0⟩,
                  ⟨some 0, some 0⟩]⟩⟩]⟩⟩
    ⟨some "y", none,
      some ⟨some [⟨some 0, some 0⟩, ⟨some 0, some 0⟩,
                  ⟨some 0, some 0⟩]⟩⟩
    (by decide) rfl (by decide)
  exact ⟨h.1, h.2 ⟨some "y", 0, ⟨0, 0⟩, ⟨0, 0⟩⟩ (by decide)⟩

end TextAnomaly
